import Mathlib

/-!
Shallow embedding of the AKS node-pool resource reconciler
(`azurerm/internal/services/containers/kubernetes_cluster_node_pool_resource.go`).

Counts (`node_count`, `min_count`, `max_count`, `max_pods`, `os_disk_size_gb`)
are modelled as `Nat`: the schema validates them with `IntBetween(1, 100)` /
`IntAtLeast(1)` and an unset optional integer reads as `0`, so negative values
never reach the reconciler.  The floating-point `max_bid_price` is modelled as
`Rat`; the reconciler only compares it against `0` and passes it through, so
the embedding is exact for every value the code distinguishes.  Nullable SDK
pointer fields (`*int32`, `*bool`, `*string`, `*float64`, slices and maps that
may be `nil`) are modelled as `Option`; the Go string enums
`ScaleSetEvictionPolicy` and `SpotMaxPrice` guards set the field only for a
non-sentinel value, so the unset enum (Go zero value `""`, omitted on the
wire) is modelled as `none`.
-/

namespace NodePool

/-- Tags and node labels: Go `map[string]string` modelled as association
lists; the reconciler only passes them through unchanged. -/
abbrev StrMap := List (String × String)

/-- The user-declared configuration, one field per schema entry, with the
Terraform zero value standing for "unset" exactly as `d.Get` returns it. -/
structure DesiredConfig where
  name : String
  kubernetesClusterId : String
  nodeCount : Nat
  tags : StrMap
  vmSize : String
  availabilityZones : List String
  enableAutoScaling : Bool
  enableNodePublicIP : Bool
  maxCount : Nat
  maxPods : Nat
  minCount : Nat
  nodeLabels : StrMap
  nodeTaints : List String
  osDiskSizeGB : Nat
  osType : String
  vnetSubnetId : String
  priority : String
  evictionPolicy : String
  maxBidPrice : Rat
deriving DecidableEq, Repr

/-- The SDK `AgentPoolType` enum values used by the resource. -/
inductive PoolType
  | virtualMachineScaleSets
  | availabilitySet
deriving DecidableEq, Repr

/-- The SDK `ManagedClusterAgentPoolProfileProperties` struct, keeping only
the fields this resource reads or writes.  Pointer-typed fields are
`Option`; the string enums `OsType`, `VMSize` and `ScaleSetPriority` are
value-typed (always sent), while `ScaleSetEvictionPolicy` is set only when
non-empty so its unset state is `none`. -/
structure AgentPoolProfile where
  osType : String
  enableAutoScaling : Option Bool
  enableNodePublicIP : Option Bool
  tags : Option StrMap
  poolType : PoolType
  vmSize : String
  scaleSetPriority : String
  count : Option Nat
  availabilityZones : Option (List String)
  maxPods : Option Nat
  nodeLabels : Option StrMap
  nodeTaints : Option (List String)
  osDiskSizeGB : Option Nat
  vnetSubnetID : Option String
  scaleSetEvictionPolicy : Option String
  spotMaxPrice : Option Rat
  maxCount : Option Nat
  minCount : Option Nat
deriving DecidableEq, Repr

/-- The SDK `AgentPool` wrapper: the profile is an embedded struct, so field
accesses such as `resp.Tags` promote to the profile in the Go source. -/
structure AgentPool where
  id : Option String
  name : Option String
  properties : Option AgentPoolProfile
deriving DecidableEq, Repr

/-- Error message from the create path when autoscaling is on but
`max_count` is missing (line 338). -/
def maxCountRequiredMsg : String :=
  "`max_count` must be configured when `enable_auto_scaling` is set to `true`"

/-- Error message from the create path when autoscaling is on but
`min_count` is missing (line 344). -/
def minCountRequiredMsg : String :=
  "`min_count` must be configured when `enable_auto_scaling` is set to `true`"

/-- Error message when the declared bounds are inverted (lines 348 and 468). -/
def maxGeMinMsg : String := "`max_count` must be >= `min_count`"

/-- Error message from the create path when autoscaling is off but a bound is
set (line 351). -/
def bothNullCreateMsg : String :=
  "`max_count` and `min_count` must be set to `null` when enable_auto_scaling is set to `false`"

/-- Error message from the update path when autoscaling is off but a bound is
set (line 472). -/
def bothNilUpdateMsg : String :=
  "`max_count` and `min_count` must be set to `nil` when enable_auto_scaling is set to `false`"

/-- Message produced by `customizeDiff` when `max_bid_price` is set under
priority `Regular` (line 198). -/
def bidPriceSpotMsg : String :=
  "`priority` must be set to `Spot` if `max_bid_price` is specified"

/-- Message produced by `customizeDiff` when `eviction_policy` is set under
priority `Regular` (lines 203 and 205). -/
def evictionPolicySpotMsg : String :=
  "`priority` must be set to `Spot` if `eviction_policy` is specified"

/-- Translation of `customizeDiff` (lines 189 to 215).  `d.GetOk` reports a
field as present exactly when its value differs from the zero value of its type,
so `hasEvictionPolicy` is non-emptiness and `hasMaxBidPrice` is being
nonzero; `some msg` models returning an error, `none` models returning nil. -/
def customizeDiff (priority evictionPolicy : String) (maxBidPrice : Rat) :
    Option String :=
  let hasEvictionPolicy : Bool := evictionPolicy ≠ ""
  let hasMaxBidPrice : Bool := maxBidPrice ≠ 0
  let errMsg : String := ""
  let errMsg : String :=
    if priority = "Regular" then
      let errMsg := if hasMaxBidPrice then bidPriceSpotMsg else errMsg
      if hasEvictionPolicy then
        if errMsg ≠ "" then errMsg ++ ", " ++ evictionPolicySpotMsg
        else evictionPolicySpotMsg
      else errMsg
    else errMsg
  if errMsg ≠ "" then some errMsg else none

/-- Translation of the unconditional profile construction and the guarded
optional-field assignments in the create path (lines 278 to 324): a field
whose declared value is the unset sentinel (zero, empty string, empty
collection) is left `none` rather than sent explicitly. -/
def buildBaseProfile (cfg : DesiredConfig) : AgentPoolProfile :=
  { osType := cfg.osType
    enableAutoScaling := some cfg.enableAutoScaling
    enableNodePublicIP := some cfg.enableNodePublicIP
    tags := some cfg.tags
    poolType := PoolType.virtualMachineScaleSets
    vmSize := cfg.vmSize
    scaleSetPriority := cfg.priority
    count := some cfg.nodeCount
    availabilityZones :=
      if 0 < cfg.availabilityZones.length then some cfg.availabilityZones else none
    maxPods := if 0 < cfg.maxPods then some cfg.maxPods else none
    nodeLabels := if 0 < cfg.nodeLabels.length then some cfg.nodeLabels else none
    nodeTaints := if 0 < cfg.nodeTaints.length then some cfg.nodeTaints else none
    osDiskSizeGB := if 0 < cfg.osDiskSizeGB then some cfg.osDiskSizeGB else none
    vnetSubnetID := if cfg.vnetSubnetId ≠ "" then some cfg.vnetSubnetId else none
    scaleSetEvictionPolicy :=
      if cfg.evictionPolicy ≠ "" then some cfg.evictionPolicy else none
    spotMaxPrice := if cfg.maxBidPrice ≠ 0 then some cfg.maxBidPrice else none
    maxCount := none
    minCount := none }

/-- Translation of the autoscaling block of the create path (lines 326 to
352), applied to the profile of `buildBaseProfile`.  An `Except.error`
models an early `return fmt.Errorf(...)`: the remote `CreateOrUpdate` call
at line 359 only ever receives a payload produced by the `Except.ok`
branch, so an error here means no mutating remote call is issued. -/
def resourceCreatePayload (cfg : DesiredConfig) : Except String AgentPoolProfile :=
  let profile := buildBaseProfile cfg
  if cfg.enableAutoScaling then
    let profile :=
      if cfg.nodeCount = 0 then { profile with count := some cfg.minCount } else profile
    if 0 < cfg.maxCount then
      let profile := { profile with maxCount := some cfg.maxCount }
      if 0 < cfg.minCount then
        let profile := { profile with minCount := some cfg.minCount }
        if cfg.maxCount < cfg.minCount then Except.error maxGeMinMsg
        else Except.ok profile
      else Except.error minCountRequiredMsg
    else Except.error maxCountRequiredMsg
  else
    if 0 < cfg.minCount ∨ 0 < cfg.maxCount then Except.error bothNullCreateMsg
    else Except.ok profile

/-- The per-field diff data the update path reads from Terraform: for each
mutable field, `d.HasChange(field)` together with the newly declared value
`d.Get(field)`.  When the flag is false the declared value equals the
previously read state for that field. -/
structure UpdateData where
  availabilityZonesChanged : Bool
  availabilityZones : List String
  enableAutoScalingChanged : Bool
  enableAutoScaling : Bool
  enableNodePublicIPChanged : Bool
  enableNodePublicIP : Bool
  maxCountChanged : Bool
  maxCount : Nat
  minCountChanged : Bool
  minCount : Nat
  nodeCountChanged : Bool
  nodeCount : Nat
  tagsChanged : Bool
  tags : StrMap
deriving DecidableEq, Repr

/-- Translation of the delta-patching block of the update path (lines 418 to
448): each of the seven mutable fields of the previously fetched profile is
overwritten with the newly declared value exactly when Terraform reports a
change for it; all other fields are left untouched. -/
def applyDeltas (props : AgentPoolProfile) (d : UpdateData) : AgentPoolProfile :=
  { props with
    availabilityZones :=
      if d.availabilityZonesChanged then some d.availabilityZones
      else props.availabilityZones
    enableAutoScaling :=
      if d.enableAutoScalingChanged then some d.enableAutoScaling
      else props.enableAutoScaling
    enableNodePublicIP :=
      if d.enableNodePublicIPChanged then some d.enableNodePublicIP
      else props.enableNodePublicIP
    maxCount := if d.maxCountChanged then some d.maxCount else props.maxCount
    minCount := if d.minCountChanged then some d.minCount else props.minCount
    count := if d.nodeCountChanged then some d.nodeCount else props.count
    tags := if d.tagsChanged then some d.tags else props.tags }

/-- The effective autoscaling toggle the update path validates against: the
stored remote value (lines 410 to 413, `nil` reading as false) overridden
by the declared value when it changed (lines 424 to 427). -/
def mergedEnableAutoScaling (props : AgentPoolProfile) (d : UpdateData) : Bool :=
  if d.enableAutoScalingChanged then d.enableAutoScaling
  else props.enableAutoScaling.getD false

/-- The effective `max_count` after delta patching, `nil` reading as `0`
(lines 451 to 454). -/
def mergedMaxCount (props : AgentPoolProfile) (d : UpdateData) : Nat :=
  (applyDeltas props d).maxCount.getD 0

/-- The effective `min_count` after delta patching, `nil` reading as `0`
(lines 455 to 458). -/
def mergedMinCount (props : AgentPoolProfile) (d : UpdateData) : Nat :=
  (applyDeltas props d).minCount.getD 0

/-- Translation of the merge of the update path and post-merge validation (lines
407 to 481): delta patching, then the autoscale consistency check on the
merged profile; with autoscaling off both bounds are explicitly nilled out
(lines 476 to 477).  As in the create path, the remote `CreateOrUpdate`
call at line 482 only receives an `Except.ok` payload, so an error means no
mutating remote call is issued. -/
def resourceUpdatePayload (props : AgentPoolProfile) (d : UpdateData) :
    Except String AgentPoolProfile :=
  let enableAutoScaling := mergedEnableAutoScaling props d
  let merged := applyDeltas props d
  let maxCount := merged.maxCount.getD 0
  let minCount := merged.minCount.getD 0
  if enableAutoScaling then
    if maxCount = 0 then Except.error maxCountRequiredMsg
    else if minCount = 0 then Except.error minCountRequiredMsg
    else if maxCount < minCount then Except.error maxGeMinMsg
    else Except.ok merged
  else
    if 0 < minCount ∨ 0 < maxCount then Except.error bothNilUpdateMsg
    else Except.ok { merged with maxCount := none, minCount := none }

/-- Translation of the state-setting block of the read path (lines 530 to
587): every nullable remote field is flattened to the zero value of the schema
when absent (`nil` slice to empty list, `nil` numeric pointer to `0`,
`nil` string pointer to `""`, `nil` bool pointer to false), and the re-read
profile is written back into the declared-configuration shape.  `name` and
`kubernetesClusterId` are taken from the parsed identifier and the parent
cluster respectively, as at lines 530 to 531. -/
def reflectProfile (name clusterId : String) (p : AgentPoolProfile) : DesiredConfig :=
  { name := name
    kubernetesClusterId := clusterId
    availabilityZones := p.availabilityZones.getD []
    enableAutoScaling := p.enableAutoScaling.getD false
    enableNodePublicIP := p.enableNodePublicIP.getD false
    maxCount := p.maxCount.getD 0
    maxPods := p.maxPods.getD 0
    minCount := p.minCount.getD 0
    nodeCount := p.count.getD 0
    nodeLabels := p.nodeLabels.getD []
    nodeTaints := p.nodeTaints.getD []
    osDiskSizeGB := p.osDiskSizeGB.getD 0
    osType := p.osType
    vnetSubnetId := p.vnetSubnetID.getD ""
    vmSize := p.vmSize
    priority := p.scaleSetPriority
    evictionPolicy := p.scaleSetEvictionPolicy.getD ""
    maxBidPrice := p.spotMaxPrice.getD 0
    tags := p.tags.getD [] }

/-- Outcome of a remote `Get`: success with a value, a NotFound response, or
any other transport failure. -/
inductive FetchResult (α : Type)
  | ok (a : α)
  | notFound
  | otherError
deriving DecidableEq, Repr

/-- The parent cluster state the create and read paths inspect: its
identifier and, when present, the types of its agent pool profiles. -/
structure ClusterState where
  id : String
  agentPoolProfiles : Option (List PoolType)
deriving DecidableEq, Repr

/-- Translation of the compatibility scan over the parent cluster (lines 243
to 253): true exactly when the properties and pool list are present and
some pool has type `VirtualMachineScaleSets`. -/
def clusterHasVMSSPool (c : ClusterState) : Bool :=
  match c.agentPoolProfiles with
  | some pools => pools.any (fun t => t = PoolType.virtualMachineScaleSets)
  | none => false

/-- Typed failures of the create path, one per early `return` site. -/
inductive CreateError
  | clusterNotFound
  | clusterFetchFailed
  | incompatibleParent
  | existenceCheckFailed
  | alreadyExists (id : String)
  | validation (msg : String)
deriving DecidableEq, Repr

/-- The environment a create reconciliation runs against: the parent fetch
result, whether Terraform considers the resource new, the identifier
returned by the pre-existence `Get` (its `ID` field, `none` when the
response had no identifier), and the declared configuration. -/
structure CreateEnv where
  cluster : FetchResult ClusterState
  isNewResource : Bool
  existing : FetchResult (Option String)
  cfg : DesiredConfig
deriving DecidableEq, Repr

/-- Translation of the create orchestration (lines 217 to 357): fetch the
parent (NotFound and transport failures are errors, lines 233 to 240),
reject a parent with no scale-set pool (lines 242 to 256), run the
idempotency guard for a new resource (lines 258 to 269, where a non-empty
identifier on the existing pool is the terminal import-as-exists error),
then build and validate the payload.  The returned `Except.ok` value is
exactly the `AgentPool` handed to the remote `CreateOrUpdate` call at line
359; every `Except.error` is an early return before that call. -/
def reconcileCreate (env : CreateEnv) : Except CreateError AgentPool :=
  match env.cluster with
  | FetchResult.notFound => Except.error CreateError.clusterNotFound
  | FetchResult.otherError => Except.error CreateError.clusterFetchFailed
  | FetchResult.ok c =>
    if clusterHasVMSSPool c = false then Except.error CreateError.incompatibleParent
    else
      let existCheck : Option CreateError :=
        if env.isNewResource then
          match env.existing with
          | FetchResult.otherError => some CreateError.existenceCheckFailed
          | FetchResult.notFound => none
          | FetchResult.ok oid =>
            match oid with
            | some i => if i ≠ "" then some (CreateError.alreadyExists i) else none
            | none => none
        else none
      match existCheck with
      | some e => Except.error e
      | none =>
        match resourceCreatePayload env.cfg with
        | Except.error m => Except.error (CreateError.validation m)
        | Except.ok profile =>
          Except.ok { id := none, name := some env.cfg.name, properties := some profile }

/-- Outcome of the read path: `dropState` models `d.SetId("")` followed by a
nil return (the resource no longer exists remotely), `failed` models
returning an error, and `stateSet` models a successful read that wrote the
reflected state (`none` when the response carried no properties, in which
case only the identity fields are set, lines 530 to 533). -/
inductive ReadOutcome
  | dropState
  | failed
  | stateSet (s : Option DesiredConfig)
deriving DecidableEq, Repr

/-- Translation of the read orchestration (lines 496 to 588): a NotFound
from fetching the parent cluster or the node pool clears local state and
succeeds; any other fetch failure is an error; otherwise the response is
reflected into state. -/
def reconcileRead (poolName : String) (cluster : FetchResult ClusterState)
    (pool : FetchResult AgentPool) : ReadOutcome :=
  match cluster with
  | FetchResult.notFound => ReadOutcome.dropState
  | FetchResult.otherError => ReadOutcome.failed
  | FetchResult.ok c =>
    match pool with
    | FetchResult.notFound => ReadOutcome.dropState
    | FetchResult.otherError => ReadOutcome.failed
    | FetchResult.ok resp =>
      ReadOutcome.stateSet (resp.properties.map (reflectProfile poolName c.id))

/-- True exactly when the second list occurs at the head of the first. -/
def charListStartsWith : List Char → List Char → Bool
  | _, [] => true
  | [], _ :: _ => false
  | c :: cs, x :: xs => (c = x) && charListStartsWith cs xs

/-- True exactly when the second list occurs somewhere inside the first. -/
def charListHasSub : List Char → List Char → Bool
  | [], pat => pat.isEmpty
  | c :: cs, pat => charListStartsWith (c :: cs) pat || charListHasSub cs pat

/-- True exactly when `pat` occurs as a substring of `s`; used to state that
an error message does not report a particular field. -/
def mentionsSub (s pat : String) : Bool := charListHasSub s.toList pat.toList

/-- C10: the pre-flight cross-field check returns an error if and only if
priority is Regular and at least one of the eviction policy or the bid
price carries a non-sentinel value; in particular every Spot configuration
passes, since Spot imposes no requirement that either be present. -/
theorem customizeDiffIff :
    ∀ (priority evictionPolicy : String) (maxBidPrice : Rat),
      (customizeDiff priority evictionPolicy maxBidPrice).isSome = true ↔
        (priority = "Regular" ∧ (evictionPolicy ≠ "" ∨ maxBidPrice ≠ 0)) := by
  intro pr ev bid
  unfold customizeDiff
  by_cases h1 : pr = "Regular" <;> by_cases h2 : ev = "" <;> by_cases h3 : bid = 0 <;>
    simp_all [bidPriceSpotMsg, evictionPolicySpotMsg]

/-- C8: on Read, a NotFound from fetching the parent cluster or the node
pool clears local state and succeeds (`dropState` models `d.SetId("")`
followed by a nil return), while any other fetch failure is surfaced as an
error. -/
theorem readNotFoundDropsState :
    ∀ (n : String) (pool : FetchResult AgentPool) (c : ClusterState),
      reconcileRead n FetchResult.notFound pool = ReadOutcome.dropState ∧
      reconcileRead n (FetchResult.ok c) FetchResult.notFound = ReadOutcome.dropState ∧
      reconcileRead n FetchResult.otherError pool = ReadOutcome.failed ∧
      reconcileRead n (FetchResult.ok c) FetchResult.otherError = ReadOutcome.failed := by
  intro n pool c
  exact ⟨rfl, rfl, rfl, rfl⟩

/-- C9: on Create, a successfully fetched parent cluster that is not backed
by a scale-set pool yields the terminal incompatible-parent error for
every existence-check outcome and every declared configuration, so the
failure happens before the existence check and before translation, and no
mutating payload is ever produced for such a parent. -/
theorem incompatibleParentTerminal :
    ∀ (env : CreateEnv) (c : ClusterState),
      env.cluster = FetchResult.ok c →
      clusterHasVMSSPool c = false →
      reconcileCreate env = Except.error CreateError.incompatibleParent := by
  intro env c hc hvmss
  unfold reconcileCreate
  rw [hc]
  simp [hvmss]

/-- Witness for the incompatible-parent theorem at a concrete environment
whose parent has only an availability-set pool. -/
theorem incompatibleParentTerminalWitness :
    reconcileCreate
      { cluster := FetchResult.ok { id := "cid", agentPoolProfiles := some [PoolType.availabilitySet] }
        isNewResource := true
        existing := FetchResult.notFound
        cfg := { name := "pool1", kubernetesClusterId := "cid", nodeCount := 1, tags := [],
                 vmSize := "Standard_D2", availabilityZones := [], enableAutoScaling := false,
                 enableNodePublicIP := false, maxCount := 0, maxPods := 0, minCount := 0,
                 nodeLabels := [], nodeTaints := [], osDiskSizeGB := 0, osType := "Linux",
                 vnetSubnetId := "", priority := "Regular", evictionPolicy := "",
                 maxBidPrice := 0 } } =
      Except.error CreateError.incompatibleParent :=
  incompatibleParentTerminal _ _ rfl rfl

/-- Characterization of a successful create payload: autoscaling on requires
both bounds positive and ordered and stamps them into the profile (with the
count falling back to the minimum when the declared count is zero), while
autoscaling off requires both bounds unset and leaves the base profile
untouched. -/
theorem createPayload_ok_elim (cfg : DesiredConfig) (p : AgentPoolProfile)
    (hok : resourceCreatePayload cfg = Except.ok p) :
    (cfg.enableAutoScaling = true ∧ 0 < cfg.maxCount ∧ 0 < cfg.minCount ∧
        cfg.minCount ≤ cfg.maxCount ∧
        p = { buildBaseProfile cfg with
              count := if cfg.nodeCount = 0 then some cfg.minCount else some cfg.nodeCount
              maxCount := some cfg.maxCount
              minCount := some cfg.minCount }) ∨
      (cfg.enableAutoScaling = false ∧ cfg.minCount = 0 ∧ cfg.maxCount = 0 ∧
        p = buildBaseProfile cfg) := by
  by_cases hA : cfg.enableAutoScaling = true
  · simp only [resourceCreatePayload, hA, if_true] at hok
    by_cases hmax : 0 < cfg.maxCount
    · by_cases hmin : 0 < cfg.minCount
      · by_cases hlt : cfg.maxCount < cfg.minCount
        · simp [hmax, hmin, hlt] at hok
        · simp [hmax, hmin, hlt] at hok
          left
          refine ⟨hA, hmax, hmin, by omega, ?_⟩
          rw [← hok]
          by_cases hn : cfg.nodeCount = 0 <;> simp [hn, buildBaseProfile]
      · simp [hmax, hmin] at hok
    · simp [hmax] at hok
  · simp only [resourceCreatePayload, hA, Bool.not_eq_true] at hok
    rw [Bool.not_eq_true] at hA
    simp only [hA, Bool.false_eq_true, if_false] at hok
    by_cases hb : 0 < cfg.minCount ∨ 0 < cfg.maxCount
    · simp [hb] at hok
    · simp [hb] at hok
      right
      push_neg at hb
      exact ⟨hA, by omega, by omega, hok.symm⟩

/-- With autoscaling enabled and well-formed bounds the create path succeeds
and produces the base profile extended with the bounds, the count falling
back to the minimum when the declared count is zero. -/
theorem createPayload_ok_intro (cfg : DesiredConfig) (hA : cfg.enableAutoScaling = true)
    (hmax : 0 < cfg.maxCount) (hmin : 0 < cfg.minCount)
    (hle : cfg.minCount ≤ cfg.maxCount) :
    resourceCreatePayload cfg =
      Except.ok { buildBaseProfile cfg with
                  count := if cfg.nodeCount = 0 then some cfg.minCount
                           else some cfg.nodeCount
                  maxCount := some cfg.maxCount
                  minCount := some cfg.minCount } := by
  simp only [resourceCreatePayload, hA, if_true]
  simp only [hmax, if_true, hmin, Nat.not_lt.mpr hle, if_false]
  by_cases hn : cfg.nodeCount = 0 <;> simp [hn, buildBaseProfile]

/-- With autoscaling disabled and both bounds unset the create path succeeds
with the base profile unchanged. -/
theorem createPayload_ok_disabled (cfg : DesiredConfig)
    (hA : cfg.enableAutoScaling = false) (hmin : cfg.minCount = 0)
    (hmax : cfg.maxCount = 0) :
    resourceCreatePayload cfg = Except.ok (buildBaseProfile cfg) := by
  simp [resourceCreatePayload, hA, hmin, hmax]

/-- C3: with autoscaling disabled, a nonzero min or max bound makes both the
create path and the update path fail with a validation error; since the
remote `CreateOrUpdate` call only ever receives an `Except.ok` payload,
the configuration is rejected before any mutating remote call rather than
silently ignored.  On the update path the check runs against the merged
(post-delta) values, which are the declared ones whenever Terraform
reports a change and the previously read ones otherwise. -/
theorem autoscaleDisabledRejectsBounds :
    (∀ cfg : DesiredConfig, cfg.enableAutoScaling = false →
      0 < cfg.minCount ∨ 0 < cfg.maxCount →
      resourceCreatePayload cfg = Except.error bothNullCreateMsg) ∧
    (∀ (props : AgentPoolProfile) (d : UpdateData),
      mergedEnableAutoScaling props d = false →
      0 < mergedMinCount props d ∨ 0 < mergedMaxCount props d →
      resourceUpdatePayload props d = Except.error bothNilUpdateMsg) := by
  constructor
  · intro cfg hA hb
    simp [resourceCreatePayload, hA, hb]
  · intro props d hA hb
    simp only [mergedMinCount, mergedMaxCount] at hb
    simp [resourceUpdatePayload, hA, hb]

/-- Witness for the disabled-autoscaling rejection: a create configuration
with `max_count` 5 and autoscaling off is rejected, and so is an update
whose merged profile still carries `min_count` 1 with autoscaling off. -/
theorem autoscaleDisabledRejectsBoundsWitness :
    resourceCreatePayload
      { name := "pool1", kubernetesClusterId := "cid", nodeCount := 1, tags := [],
        vmSize := "Standard_D2", availabilityZones := [], enableAutoScaling := false,
        enableNodePublicIP := false, maxCount := 5, maxPods := 0, minCount := 0,
        nodeLabels := [], nodeTaints := [], osDiskSizeGB := 0, osType := "Linux",
        vnetSubnetId := "", priority := "Regular", evictionPolicy := "",
        maxBidPrice := 0 } = Except.error bothNullCreateMsg ∧
    resourceUpdatePayload
      { osType := "Linux", enableAutoScaling := some false, enableNodePublicIP := some false,
        tags := some [], poolType := PoolType.virtualMachineScaleSets,
        vmSize := "Standard_D2", scaleSetPriority := "Regular", count := some 3,
        availabilityZones := none, maxPods := none, nodeLabels := none, nodeTaints := none,
        osDiskSizeGB := none, vnetSubnetID := none, scaleSetEvictionPolicy := none,
        spotMaxPrice := none, maxCount := none, minCount := some 1 }
      { availabilityZonesChanged := false, availabilityZones := [],
        enableAutoScalingChanged := false, enableAutoScaling := false,
        enableNodePublicIPChanged := false, enableNodePublicIP := false,
        maxCountChanged := false, maxCount := 0, minCountChanged := false, minCount := 0,
        nodeCountChanged := false, nodeCount := 0, tagsChanged := false, tags := [] } =
      Except.error bothNilUpdateMsg :=
  ⟨autoscaleDisabledRejectsBounds.1 _ rfl (Or.inr (by decide)),
   autoscaleDisabledRejectsBounds.2 _ _ (by decide) (Or.inl (by decide))⟩

/-- C4: with autoscaling enabled, the create path and the update path pass
validation exactly when both bounds are present (positive) and the minimum
does not exceed the maximum; equal bounds are accepted and an inverted
pair is rejected.  The update path checks the merged post-delta values. -/
theorem autoscaleEnabledBoundsIff :
    (∀ cfg : DesiredConfig, cfg.enableAutoScaling = true →
      ((∃ p, resourceCreatePayload cfg = Except.ok p) ↔
        (0 < cfg.minCount ∧ 0 < cfg.maxCount ∧ cfg.minCount ≤ cfg.maxCount))) ∧
    (∀ (props : AgentPoolProfile) (d : UpdateData),
      mergedEnableAutoScaling props d = true →
      ((∃ p, resourceUpdatePayload props d = Except.ok p) ↔
        (0 < mergedMinCount props d ∧ 0 < mergedMaxCount props d ∧
          mergedMinCount props d ≤ mergedMaxCount props d))) := by
  constructor
  · intro cfg hA
    constructor
    · rintro ⟨p, hp⟩
      rcases createPayload_ok_elim cfg p hp with ⟨_, h1, h2, h3, _⟩ | ⟨hA2, _, _, _⟩
      · exact ⟨h2, h1, h3⟩
      · rw [hA] at hA2; cases hA2
    · rintro ⟨h1, h2, h3⟩
      exact ⟨_, createPayload_ok_intro cfg hA h2 h1 h3⟩
  · intro props d hA
    simp only [mergedMinCount, mergedMaxCount]
    simp only [resourceUpdatePayload, hA, if_true]
    by_cases h1 : (applyDeltas props d).maxCount.getD 0 = 0
    · simp [h1]
    · by_cases h2 : (applyDeltas props d).minCount.getD 0 = 0
      · simp [h1, h2]
      · by_cases h3 : (applyDeltas props d).maxCount.getD 0 <
            (applyDeltas props d).minCount.getD 0
        · simp [h1, h2, h3]
        · simp only [h1, h2, h3, if_false]
          simp
          omega

/-- Witness for the enabled-autoscaling bound validation on the create path
at equal bounds (3 and 3), the edge case the spec declares legal. -/
theorem autoscaleEnabledBoundsIffWitness :
    ((∃ p, resourceCreatePayload
      { name := "pool1", kubernetesClusterId := "cid", nodeCount := 0, tags := [],
        vmSize := "Standard_D2", availabilityZones := [], enableAutoScaling := true,
        enableNodePublicIP := false, maxCount := 3, maxPods := 0, minCount := 3,
        nodeLabels := [], nodeTaints := [], osDiskSizeGB := 0, osType := "Linux",
        vnetSubnetId := "", priority := "Regular", evictionPolicy := "",
        maxBidPrice := 0 } = Except.ok p) ↔ (0 < 3 ∧ 0 < 3 ∧ 3 ≤ 3)) := by
  have h := autoscaleEnabledBoundsIff.1
    { name := "pool1", kubernetesClusterId := "cid", nodeCount := 0, tags := [],
      vmSize := "Standard_D2", availabilityZones := [], enableAutoScaling := true,
      enableNodePublicIP := false, maxCount := 3, maxPods := 0, minCount := 3,
      nodeLabels := [], nodeTaints := [], osDiskSizeGB := 0, osType := "Linux",
      vnetSubnetId := "", priority := "Regular", evictionPolicy := "",
      maxBidPrice := 0 } rfl
  exact h

/-- C5: whenever the merged result of an update has autoscaling disabled and
the update passes validation, the outbound payload carries explicitly
cleared (`nil`) min and max bounds rather than stale values. -/
theorem autoscaleOffCleanup :
    ∀ (props : AgentPoolProfile) (d : UpdateData) (p : AgentPoolProfile),
      mergedEnableAutoScaling props d = false →
      resourceUpdatePayload props d = Except.ok p →
      p.maxCount = none ∧ p.minCount = none := by
  intro props d p hA hok
  simp only [resourceUpdatePayload, hA, Bool.false_eq_true, if_false] at hok
  by_cases h : 0 < (applyDeltas props d).minCount.getD 0 ∨
      0 < (applyDeltas props d).maxCount.getD 0
  · simp [h] at hok
  · simp [h] at hok
    rw [← hok]
    exact ⟨rfl, rfl⟩

/-- Prior observed profile for the autoscale-off scenario: autoscaling on
with bounds 1 and 5. -/
def autoscaleOffPrior : AgentPoolProfile :=
  { osType := "Linux", enableAutoScaling := some true, enableNodePublicIP := some false,
    tags := some [], poolType := PoolType.virtualMachineScaleSets,
    vmSize := "Standard_D2", scaleSetPriority := "Regular", count := some 3,
    availabilityZones := none, maxPods := none, nodeLabels := none, nodeTaints := none,
    osDiskSizeGB := none, vnetSubnetID := none, scaleSetEvictionPolicy := none,
    spotMaxPrice := none, maxCount := some 5, minCount := some 1 }

/-- The declared update for the autoscale-off scenario: autoscaling turned
off, both bounds removed from the declaration (their values reading as
zero). -/
def autoscaleOffDelta : UpdateData :=
  { availabilityZonesChanged := false, availabilityZones := [],
    enableAutoScalingChanged := true, enableAutoScaling := false,
    enableNodePublicIPChanged := false, enableNodePublicIP := false,
    maxCountChanged := true, maxCount := 0, minCountChanged := true, minCount := 0,
    nodeCountChanged := false, nodeCount := 0, tagsChanged := false, tags := [] }

/-- The merged payload the autoscale-off scenario produces: both bounds
explicitly cleared. -/
def autoscaleOffResult : AgentPoolProfile :=
  { osType := "Linux", enableAutoScaling := some false, enableNodePublicIP := some false,
    tags := some [], poolType := PoolType.virtualMachineScaleSets,
    vmSize := "Standard_D2", scaleSetPriority := "Regular", count := some 3,
    availabilityZones := none, maxPods := none, nodeLabels := none, nodeTaints := none,
    osDiskSizeGB := none, vnetSubnetID := none, scaleSetEvictionPolicy := none,
    spotMaxPrice := none, maxCount := none, minCount := none }

/-- Witness for the autoscale-off cleanup at the scenario given in the spec: prior
observed state enabled with bounds 1 and 5, newly declared state disabled
with both bounds removed. -/
theorem autoscaleOffCleanupWitness :
    resourceUpdatePayload autoscaleOffPrior autoscaleOffDelta =
      Except.ok autoscaleOffResult ∧
    autoscaleOffResult.maxCount = none ∧ autoscaleOffResult.minCount = none :=
  ⟨rfl, autoscaleOffCleanup autoscaleOffPrior autoscaleOffDelta autoscaleOffResult rfl rfl⟩

/-- C6: every successful create payload carries a count, and when
autoscaling is enabled with the declared count unset (zero) the payload
count is the declared autoscaling minimum instead of zero. -/
theorem createCountPresent :
    ∀ (cfg : DesiredConfig) (p : AgentPoolProfile),
      resourceCreatePayload cfg = Except.ok p →
      p.count.isSome = true ∧
      (cfg.enableAutoScaling = true → cfg.nodeCount = 0 →
        p.count = some cfg.minCount) := by
  intro cfg p hok
  rcases createPayload_ok_elim cfg p hok with ⟨hA, _, _, _, hp⟩ | ⟨hA, _, _, hp⟩
  · subst hp
    by_cases hn : cfg.nodeCount = 0 <;> simp [hn]
  · subst hp
    rw [hA]
    simp [buildBaseProfile]

/-- Configuration for the count-substitution witness: autoscaling enabled,
declared count unset (zero), minimum 2, maximum 4. -/
def countSubCfg : DesiredConfig :=
  { name := "pool1", kubernetesClusterId := "cid", nodeCount := 0, tags := [],
    vmSize := "Standard_D2", availabilityZones := [], enableAutoScaling := true,
    enableNodePublicIP := false, maxCount := 4, maxPods := 0, minCount := 2,
    nodeLabels := [], nodeTaints := [], osDiskSizeGB := 0, osType := "Linux",
    vnetSubnetId := "", priority := "Regular", evictionPolicy := "",
    maxBidPrice := 0 }

/-- The payload the count-substitution witness produces: count 2 (the
declared minimum), bounds 2 and 4. -/
def countSubPayload : AgentPoolProfile :=
  { buildBaseProfile countSubCfg with
    count := some 2, maxCount := some 4, minCount := some 2 }

/-- Witness for the count-substitution rule: the configuration above yields
a payload whose count is present and equals the declared minimum 2. -/
theorem createCountPresentWitness :
    resourceCreatePayload countSubCfg = Except.ok countSubPayload ∧
    countSubPayload.count.isSome = true ∧ countSubPayload.count = some 2 := by
  have h := createCountPresent countSubCfg countSubPayload rfl
  exact ⟨rfl, h.1, h.2 rfl rfl⟩

/-- C7: a successful create payload omits every optional field whose
declared value is the unset sentinel (zero count or size or bid price,
empty string, empty collection) rather than sending an explicit zero or
empty value, and a zero bid price is never transmitted: no payload ever
carries an explicit `some 0` bid. -/
theorem createOmitsUnsetOptionals :
    ∀ (cfg : DesiredConfig) (p : AgentPoolProfile),
      resourceCreatePayload cfg = Except.ok p →
      (cfg.maxPods = 0 → p.maxPods = none) ∧
      (cfg.osDiskSizeGB = 0 → p.osDiskSizeGB = none) ∧
      (cfg.maxBidPrice = 0 → p.spotMaxPrice = none) ∧
      (cfg.vnetSubnetId = "" → p.vnetSubnetID = none) ∧
      (cfg.evictionPolicy = "" → p.scaleSetEvictionPolicy = none) ∧
      (cfg.availabilityZones = [] → p.availabilityZones = none) ∧
      (cfg.nodeLabels = [] → p.nodeLabels = none) ∧
      (cfg.nodeTaints = [] → p.nodeTaints = none) ∧
      p.spotMaxPrice ≠ some 0 := by
  intro cfg p hok
  have hfields :
      p.maxPods = (buildBaseProfile cfg).maxPods ∧
      p.osDiskSizeGB = (buildBaseProfile cfg).osDiskSizeGB ∧
      p.spotMaxPrice = (buildBaseProfile cfg).spotMaxPrice ∧
      p.vnetSubnetID = (buildBaseProfile cfg).vnetSubnetID ∧
      p.scaleSetEvictionPolicy = (buildBaseProfile cfg).scaleSetEvictionPolicy ∧
      p.availabilityZones = (buildBaseProfile cfg).availabilityZones ∧
      p.nodeLabels = (buildBaseProfile cfg).nodeLabels ∧
      p.nodeTaints = (buildBaseProfile cfg).nodeTaints := by
    rcases createPayload_ok_elim cfg p hok with ⟨_, _, _, _, hp⟩ | ⟨_, _, _, hp⟩ <;>
      subst hp <;> by_cases hn : cfg.nodeCount = 0 <;> simp [hn]
  obtain ⟨h1, h2, h3, h4, h5, h6, h7, h8⟩ := hfields
  rw [h1, h2, h3, h4, h5, h6, h7, h8]
  refine ⟨?_, ?_, ?_, ?_, ?_, ?_, ?_, ?_, ?_⟩ <;> simp only [buildBaseProfile]
  iterate 8 (intro h; simp [h])
  intro h
  by_cases hb : cfg.maxBidPrice = 0
  · simp [hb] at h
  · simp [hb] at h

/-- Configuration for the omitted-optionals witness: every optional field
left at its unset sentinel. -/
def unsetOptionalsCfg : DesiredConfig :=
  { name := "pool1", kubernetesClusterId := "cid", nodeCount := 1, tags := [],
    vmSize := "Standard_D2", availabilityZones := [], enableAutoScaling := false,
    enableNodePublicIP := false, maxCount := 0, maxPods := 0, minCount := 0,
    nodeLabels := [], nodeTaints := [], osDiskSizeGB := 0, osType := "Linux",
    vnetSubnetId := "", priority := "Regular", evictionPolicy := "", maxBidPrice := 0 }

/-- Witness for the omitted-optionals rule: with every optional field unset
the successful create payload carries none of them, and its bid price is
not an explicit zero. -/
theorem createOmitsUnsetOptionalsWitness :
    (buildBaseProfile unsetOptionalsCfg).maxPods = none ∧
    (buildBaseProfile unsetOptionalsCfg).osDiskSizeGB = none ∧
    (buildBaseProfile unsetOptionalsCfg).spotMaxPrice = none ∧
    (buildBaseProfile unsetOptionalsCfg).vnetSubnetID = none ∧
    (buildBaseProfile unsetOptionalsCfg).scaleSetEvictionPolicy = none ∧
    (buildBaseProfile unsetOptionalsCfg).availabilityZones = none ∧
    (buildBaseProfile unsetOptionalsCfg).nodeLabels = none ∧
    (buildBaseProfile unsetOptionalsCfg).nodeTaints = none ∧
    (buildBaseProfile unsetOptionalsCfg).spotMaxPrice ≠ some 0 := by
  have h := createOmitsUnsetOptionals unsetOptionalsCfg
    (buildBaseProfile unsetOptionalsCfg) rfl
  exact ⟨h.1 rfl, h.2.1 rfl, h.2.2.1 rfl, h.2.2.2.1 rfl, h.2.2.2.2.1 rfl,
    h.2.2.2.2.2.1 rfl, h.2.2.2.2.2.2.1 rfl, h.2.2.2.2.2.2.2.1 rfl,
    h.2.2.2.2.2.2.2.2⟩

/-- Configuration violating the autoscaling requirements twice over:
autoscaling enabled with both the min and the max bound missing.  The
claim under test expects the returned error to report both violations. -/
def bothBoundsMissingCfg : DesiredConfig :=
  { name := "pool1", kubernetesClusterId := "cid", nodeCount := 1, tags := [],
    vmSize := "Standard_D2", availabilityZones := [], enableAutoScaling := true,
    enableNodePublicIP := false, maxCount := 0, maxPods := 0, minCount := 0,
    nodeLabels := [], nodeTaints := [], osDiskSizeGB := 0, osType := "Linux",
    vnetSubnetId := "", priority := "Regular", evictionPolicy := "", maxBidPrice := 0 }

/-- C1 counterexample: a configuration with autoscaling enabled and both
bounds missing violates both the min and the max requirement, yet the
returned error is exactly the `max_count` message alone and does not
mention `min_count` at all, so the validation does not accumulate every
applicable violation into one combined error. -/
theorem validationAccumulationCounterexample :
    bothBoundsMissingCfg.enableAutoScaling = true ∧
    bothBoundsMissingCfg.minCount = 0 ∧
    bothBoundsMissingCfg.maxCount = 0 ∧
    resourceCreatePayload bothBoundsMissingCfg = Except.error maxCountRequiredMsg ∧
    mentionsSub maxCountRequiredMsg "min_count" = false := by
  refine ⟨rfl, rfl, rfl, rfl, ?_⟩
  decide

/-- C1 (amended): the cross-field priority check accumulates both of its
applicable messages into one combined error, but the autoscaling checks of
the create path fail fast and are never combined with it: with autoscaling
enabled, a missing max bound is reported alone whatever the min bound is,
and a present max with a missing min is reported alone. -/
theorem validationAccumulationAmended :
    (∀ (ev : String) (bid : Rat), ev ≠ "" → bid ≠ 0 →
      customizeDiff "Regular" ev bid =
        some (bidPriceSpotMsg ++ ", " ++ evictionPolicySpotMsg)) ∧
    (∀ cfg : DesiredConfig, cfg.enableAutoScaling = true → cfg.maxCount = 0 →
      resourceCreatePayload cfg = Except.error maxCountRequiredMsg) ∧
    (∀ cfg : DesiredConfig, cfg.enableAutoScaling = true → 0 < cfg.maxCount →
      cfg.minCount = 0 →
      resourceCreatePayload cfg = Except.error minCountRequiredMsg) := by
  refine ⟨?_, ?_, ?_⟩
  · intro ev bid hev hbid
    simp [customizeDiff, hev, hbid, bidPriceSpotMsg, evictionPolicySpotMsg]
  · intro cfg hA hmax
    simp [resourceCreatePayload, hA, hmax]
  · intro cfg hA hmax hmin
    simp [resourceCreatePayload, hA, hmax, hmin]

/-- Witness for the amended accumulation behaviour: under priority Regular
with both Spot-only fields set the combined two-part message is returned,
and the both-bounds-missing configuration gets exactly the max-bound
message. -/
theorem validationAccumulationWitness :
    customizeDiff "Regular" "Delete" (1/2) =
      some (bidPriceSpotMsg ++ ", " ++ evictionPolicySpotMsg) ∧
    resourceCreatePayload bothBoundsMissingCfg = Except.error maxCountRequiredMsg :=
  ⟨validationAccumulationAmended.1 "Delete" (1/2) (by decide) (by norm_num),
   validationAccumulationAmended.2.1 bothBoundsMissingCfg rfl rfl⟩

/-- C2: for every configuration that passes the invariant validator (the
pre-flight cross-field check and the create-path autoscaling validation),
reflecting the create payload back through the state reflector of the read path
reproduces every non-computed field of the configuration exactly.  The
schema marks `node_count`, `max_pods`, `node_labels`, `node_taints` and
`os_disk_size_gb` as computed; every remaining field is listed below.
The identity inputs of the reflector are the pool name and the parent cluster
identifier a successful create records. -/
theorem createReadRoundTrip :
    ∀ (cfg : DesiredConfig) (p : AgentPoolProfile),
      customizeDiff cfg.priority cfg.evictionPolicy cfg.maxBidPrice = none →
      resourceCreatePayload cfg = Except.ok p →
      (reflectProfile cfg.name cfg.kubernetesClusterId p).name = cfg.name ∧
      (reflectProfile cfg.name cfg.kubernetesClusterId p).kubernetesClusterId =
        cfg.kubernetesClusterId ∧
      (reflectProfile cfg.name cfg.kubernetesClusterId p).tags = cfg.tags ∧
      (reflectProfile cfg.name cfg.kubernetesClusterId p).vmSize = cfg.vmSize ∧
      (reflectProfile cfg.name cfg.kubernetesClusterId p).availabilityZones =
        cfg.availabilityZones ∧
      (reflectProfile cfg.name cfg.kubernetesClusterId p).enableAutoScaling =
        cfg.enableAutoScaling ∧
      (reflectProfile cfg.name cfg.kubernetesClusterId p).enableNodePublicIP =
        cfg.enableNodePublicIP ∧
      (reflectProfile cfg.name cfg.kubernetesClusterId p).maxCount = cfg.maxCount ∧
      (reflectProfile cfg.name cfg.kubernetesClusterId p).minCount = cfg.minCount ∧
      (reflectProfile cfg.name cfg.kubernetesClusterId p).osType = cfg.osType ∧
      (reflectProfile cfg.name cfg.kubernetesClusterId p).vnetSubnetId =
        cfg.vnetSubnetId ∧
      (reflectProfile cfg.name cfg.kubernetesClusterId p).priority = cfg.priority ∧
      (reflectProfile cfg.name cfg.kubernetesClusterId p).evictionPolicy =
        cfg.evictionPolicy ∧
      (reflectProfile cfg.name cfg.kubernetesClusterId p).maxBidPrice =
        cfg.maxBidPrice := by
  intro cfg p _hv hok
  rcases createPayload_ok_elim cfg p hok with
      ⟨hA, hmax, hmin, hle, hp⟩ | ⟨hA, hmin, hmax, hp⟩ <;> subst hp
  · refine ⟨rfl, rfl, rfl, rfl, ?_, rfl, rfl, rfl, rfl, rfl, ?_, rfl, ?_, ?_⟩
    · cases hz : cfg.availabilityZones <;>
        simp [reflectProfile, buildBaseProfile, hz]
    · by_cases hs : cfg.vnetSubnetId = "" <;>
        simp [reflectProfile, buildBaseProfile, hs]
    · by_cases he : cfg.evictionPolicy = "" <;>
        simp [reflectProfile, buildBaseProfile, he]
    · by_cases hb : cfg.maxBidPrice = 0 <;>
        simp [reflectProfile, buildBaseProfile, hb]
  · refine ⟨rfl, rfl, rfl, rfl, ?_, rfl, rfl, ?_, ?_, rfl, ?_, rfl, ?_, ?_⟩
    · cases hz : cfg.availabilityZones <;>
        simp [reflectProfile, buildBaseProfile, hz]
    · simp [reflectProfile, buildBaseProfile, hmax]
    · simp [reflectProfile, buildBaseProfile, hmin]
    · by_cases hs : cfg.vnetSubnetId = "" <;>
        simp [reflectProfile, buildBaseProfile, hs]
    · by_cases he : cfg.evictionPolicy = "" <;>
        simp [reflectProfile, buildBaseProfile, he]
    · by_cases hb : cfg.maxBidPrice = 0 <;>
        simp [reflectProfile, buildBaseProfile, hb]

/-- Configuration for the round-trip witness: a Spot pool with autoscaling
on, every optional field populated. -/
def roundTripCfg : DesiredConfig :=
  { name := "pool1", kubernetesClusterId := "cid", nodeCount := 3,
    tags := [("env", "prod")], vmSize := "Standard_D2",
    availabilityZones := ["1", "2"], enableAutoScaling := true,
    enableNodePublicIP := true, maxCount := 4, maxPods := 30, minCount := 2,
    nodeLabels := [("role", "web")], nodeTaints := ["dedicated=web:NoSchedule"],
    osDiskSizeGB := 64, osType := "Linux", vnetSubnetId := "subnet1",
    priority := "Spot", evictionPolicy := "Delete", maxBidPrice := 1 }

/-- The payload the round-trip witness configuration creates. -/
def roundTripPayload : AgentPoolProfile :=
  { buildBaseProfile roundTripCfg with
    count := some 3, maxCount := some 4, minCount := some 2 }

/-- Witness for the round trip at the configuration above: it passes both
validators and reflecting its payload reproduces every non-computed
field. -/
theorem createReadRoundTripWitness :
    customizeDiff roundTripCfg.priority roundTripCfg.evictionPolicy
      roundTripCfg.maxBidPrice = none ∧
    resourceCreatePayload roundTripCfg = Except.ok roundTripPayload ∧
    ((reflectProfile roundTripCfg.name roundTripCfg.kubernetesClusterId
        roundTripPayload).name = roundTripCfg.name ∧
      (reflectProfile roundTripCfg.name roundTripCfg.kubernetesClusterId
        roundTripPayload).kubernetesClusterId = roundTripCfg.kubernetesClusterId ∧
      (reflectProfile roundTripCfg.name roundTripCfg.kubernetesClusterId
        roundTripPayload).tags = roundTripCfg.tags ∧
      (reflectProfile roundTripCfg.name roundTripCfg.kubernetesClusterId
        roundTripPayload).vmSize = roundTripCfg.vmSize ∧
      (reflectProfile roundTripCfg.name roundTripCfg.kubernetesClusterId
        roundTripPayload).availabilityZones = roundTripCfg.availabilityZones ∧
      (reflectProfile roundTripCfg.name roundTripCfg.kubernetesClusterId
        roundTripPayload).enableAutoScaling = roundTripCfg.enableAutoScaling ∧
      (reflectProfile roundTripCfg.name roundTripCfg.kubernetesClusterId
        roundTripPayload).enableNodePublicIP = roundTripCfg.enableNodePublicIP ∧
      (reflectProfile roundTripCfg.name roundTripCfg.kubernetesClusterId
        roundTripPayload).maxCount = roundTripCfg.maxCount ∧
      (reflectProfile roundTripCfg.name roundTripCfg.kubernetesClusterId
        roundTripPayload).minCount = roundTripCfg.minCount ∧
      (reflectProfile roundTripCfg.name roundTripCfg.kubernetesClusterId
        roundTripPayload).osType = roundTripCfg.osType ∧
      (reflectProfile roundTripCfg.name roundTripCfg.kubernetesClusterId
        roundTripPayload).vnetSubnetId = roundTripCfg.vnetSubnetId ∧
      (reflectProfile roundTripCfg.name roundTripCfg.kubernetesClusterId
        roundTripPayload).priority = roundTripCfg.priority ∧
      (reflectProfile roundTripCfg.name roundTripCfg.kubernetesClusterId
        roundTripPayload).evictionPolicy = roundTripCfg.evictionPolicy ∧
      (reflectProfile roundTripCfg.name roundTripCfg.kubernetesClusterId
        roundTripPayload).maxBidPrice = roundTripCfg.maxBidPrice) :=
  ⟨rfl, rfl, createReadRoundTrip roundTripCfg roundTripPayload rfl rfl⟩

end NodePool
